import Mathlib

/-!
Verification of the CSDAP bulk-download client (`csdap_bulk_download`).

Shallow embedding of the two core modules:
* `csdap.py` — `CsdapClient.get_auth_token` (four-step login protocol) and
  `CsdapClient.download_file` (per-task download / skip / failure logic);
* `cli.py` — the bounded-concurrency download scheduler built on a thread
  pool with a `future_to_path` map and producer-side backpressure.

HTTP responses are modelled as explicit records fed to the pure functions
(the network oracle); the filesystem is an explicit association list from
path-segment lists to nodes; Python exceptions are modelled by `Except`.
-/

namespace Csdap

/-! ## Python-style string utilities (operating on `List Char`) -/

/-- Structural scan behind `str.find`: `findSubIn sub l i` returns the
absolute index of the first occurrence of `sub` in the suffix `l`, whose
first character has absolute index `i`. -/
def findSubIn (sub : List Char) : List Char → Nat → Option Nat
  | [], i => if sub = [] then some i else none
  | x :: rest, i =>
    if (x :: rest).take sub.length = sub then some i
    else findSubIn sub rest (i + 1)

/-- First index `≥ start` at which `sub` occurs in `l`
(`str.find(sub, start)` in Python, `none` for `-1`). -/
def findSubFrom (l sub : List Char) (start : Nat) : Option Nat :=
  findSubIn sub (l.drop start) start

/-- Python `str.startswith(pre)`. -/
def pyStartsWith (s pre : String) : Bool := pre.data.isPrefixOf s.data

/-- Split on a one-character separator (`str.split(sep)`); the result is
never empty. -/
def splitOnSep (sep : Char) : List Char → List (List Char)
  | [] => [[]]
  | x :: rest =>
    if x = sep then [] :: splitOnSep sep rest
    else
      match splitOnSep sep rest with
      | [] => [[x]]
      | p :: ps => (x :: p) :: ps

/-- Python `str.find(sub)`: first occurrence index, `-1` when absent. -/
def pyFind (s sub : String) : Int :=
  match findSubFrom s.data sub.data 0 with
  | some i => (i : Int)
  | none => -1

/-- Python `str.find(c, start)` for a single character. -/
def pyFindCharFrom (s : String) (c : Char) (start : Nat) : Int :=
  match findSubFrom s.data [c] start with
  | some i => (i : Int)
  | none => -1

/-- Python `sub in s` substring containment. -/
def containsSub (s sub : String) : Bool :=
  (findSubFrom s.data sub.data 0).isSome

/-- Python slice `l[start:e]` with a possibly negative end index. -/
def pySlice (l : List Char) (start : Nat) (e : Int) : List Char :=
  let n := l.length
  let e' : Int := if e < 0 then (n : Int) + e else e
  ((l.take (min e'.toNat n)).drop start)

/-- Python `str.strip()` (both ends, whitespace). -/
def pyStrip (s : String) : String :=
  String.mk (((s.data.dropWhile Char.isWhitespace).reverse.dropWhile
    Char.isWhitespace).reverse)

/-- Model of `textwrap.indent(s, " " * 4)`: four spaces before every line that is not
purely whitespace. -/
def indent4 (s : String) : String :=
  String.intercalate "\n" (((splitOnSep '\n' s.data).map String.mk).map fun l =>
    if l.data.any (fun c => !c.isWhitespace) then "    " ++ l else l)

/-! ## `urllib.parse` fragment: `urlparse().path`, `urlparse().query`,
`parse_qs` -/

/-- Model of `urlparse(url).path`: strip the fragment and query, then the
`scheme://netloc` head when present. -/
def urlPath (url : String) : String :=
  let base := (url.data.takeWhile (fun c => c ≠ '#')).takeWhile (fun c => c ≠ '?')
  match findSubFrom base "://".data 0 with
  | none => String.mk base
  | some i => String.mk ((base.drop (i + 3)).dropWhile (fun c => c ≠ '/'))

/-- Model of `urlparse(url).query`: the part between the first `?` and the fragment. -/
def urlQuery (url : String) : String :=
  let noFrag := url.data.takeWhile (fun c => c ≠ '#')
  String.mk ((noFrag.dropWhile (fun c => c ≠ '?')).drop 1)

/-- Hexadecimal digit value, for percent-decoding. -/
def hexVal (c : Char) : Option Nat :=
  if '0' ≤ c ∧ c ≤ '9' then some (c.toNat - '0'.toNat)
  else if 'a' ≤ c ∧ c ≤ 'f' then some (c.toNat - 'a'.toNat + 10)
  else if 'A' ≤ c ∧ c ≤ 'F' then some (c.toNat - 'A'.toNat + 10)
  else none

/-- Model of `urllib.parse.unquote_plus` on characters (`+` → space, `%XX` decoded
bytewise; multi-byte UTF-8 sequences are modelled byte-by-byte). -/
def unquoteChars : List Char → List Char
  | [] => []
  | '+' :: rest => ' ' :: unquoteChars rest
  | '%' :: a :: b :: rest =>
    match hexVal a, hexVal b with
    | some x, some y => Char.ofNat (16 * x + y) :: unquoteChars rest
    | _, _ => '%' :: unquoteChars (a :: b :: rest)
  | c :: rest => c :: unquoteChars rest

def unquotePlus (s : String) : String := String.mk (unquoteChars s.data)

/-- One `name=value` pair of a query string: split on the first `=`; pairs
without `=` or with an empty value are dropped (`keep_blank_values=False`). -/
def qsPair (part : String) : Option (String × String) :=
  let name := part.data.takeWhile (fun c => c ≠ '=')
  let rest := part.data.dropWhile (fun c => c ≠ '=')
  match rest with
  | [] => none
  | _ :: value => if value = [] then none
      else some (unquotePlus (String.mk name), unquotePlus (String.mk value))

/-- Insert a `(key, value)` into an ordered multimap, appending to the value
list of an existing key. -/
def qsInsert (acc : List (String × List String)) (k v : String) :
    List (String × List String) :=
  match acc with
  | [] => [(k, [v])]
  | (k', vs) :: rest =>
    if k' = k then (k', vs ++ [v]) :: rest else (k', vs) :: qsInsert rest k v

/-- Model of `urllib.parse.parse_qs`: split the query on `&`, parse each pair, group
values by key. -/
def parse_qs (query : String) : List (String × List String) :=
  (((splitOnSep '&' query.data).map String.mk).filterMap qsPair).foldl
    (fun acc kv => qsInsert acc kv.1 kv.2) []

/-- Lookup `d.get(k)` on the parsed query dict, `[]` when the key is absent
(`parse_qs` never stores an empty list, so truthiness of `.get(k)` is
non-emptiness of `qsGet`). -/
def qsGet (qs : List (String × List String)) (k : String) : List String :=
  match qs with
  | [] => []
  | (k', vs) :: rest => if k' = k then vs else qsGet rest k

/-- Lookup `d[k]` on the parsed query dict: `none` models a raised `KeyError`. -/
def qsLookup (qs : List (String × List String)) (k : String) :
    Option (List String) :=
  match qs with
  | [] => none
  | (k', vs) :: rest => if k' = k then some vs else qsLookup rest k

/-- First value for a key in an association list (a JSON object or a header
map; header lookup is modelled case-sensitively with canonical casing). -/
def lookupKV (obj : List (String × String)) (k : String) : Option String :=
  match obj with
  | [] => none
  | (k', v) :: rest => if k' = k then some v else lookupKV rest k

/-- Header lookup `headers.get(k, d)`. -/
def headerGetD (hs : List (String × String)) (k d : String) : String :=
  match lookupKV hs k with
  | some v => v
  | none => d

/-! ## Python exceptions -/

/-- Exceptions the embedded code can raise.  `authError`/`authErrorList`
model `AuthError` (the latter for `AuthError(querystring["error_msg"])`,
whose argument is a list of values); the rest are unclassified faults. -/
inductive PyErr
  | authError (msg : String)
  | authErrorList (msgs : List String)
  | keyError (key : String)
  | httpError (status : Nat)
  | jsonDecodeError
  | notADirectoryError (path : List String)
  | fileExistsError (path : List String)
  | connectionError
  deriving DecidableEq, Repr

/-- Is the exception a classified `AuthError`? -/
def PyErr.isAuthErr : PyErr → Bool
  | .authError _ => true
  | .authErrorList _ => true
  | _ => false

/-! ## Filesystem model

Paths are lists of segments; the filesystem is an association list from
paths to nodes (first match wins, insertion is `cons`). -/

/-- A filesystem node: a regular file with its content, or a directory. -/
inductive Node
  | file (content : String)
  | dir
  deriving DecidableEq, Repr

abbrev FS := List (List String × Node)

def fsLookup (fs : FS) (p : List String) : Option Node :=
  match fs with
  | [] => none
  | (q, n) :: rest => if q = p then some n else fsLookup rest p

/-- Existence check `path.exists()`. -/
def fsExists (fs : FS) (p : List String) : Bool := (fsLookup fs p).isSome

/-- Entry names of the directory `p`, derived from the stored paths
(`os.listdir` on a directory). -/
def childNames (fs : FS) (p : List String) : List String :=
  fs.filterMap fun e =>
    if e.1.take p.length = p ∧ e.1.length = p.length + 1 then
      (e.1.drop p.length).head?
    else none

/-- Model of `file_dir.mkdir(parents=True, exist_ok=True)`: create every missing
prefix as a directory; an existing file in the chain raises
(`NotADirectoryError` for an ancestor, `FileExistsError` for the target). -/
def mkdirParents (fs : FS) (p : List String) : Except PyErr FS :=
  (List.range p.length).foldlM
    (fun acc i =>
      let pre := p.take (i + 1)
      match fsLookup acc pre with
      | some (.file _) =>
        if pre = p then .error (.fileExistsError pre)
        else .error (.notADirectoryError pre)
      | some .dir => .ok acc
      | none => .ok ((pre, Node.dir) :: acc))
    fs

/-- Render a path the way `str(Path(...))` does. -/
def pathStr (p : List String) : String := String.intercalate "/" p

/-- Model of `path.name`: the final segment. -/
def pathName (p : List String) : String := p.getLast?.getD ""

/-! ## `CsdapClient.download_file` -/

/-- A download response (the network oracle for one streaming GET):
`status_code`, the decoded JSON body (`none` = `JSONDecodeError`), the raw
text, the `Content-Disposition` header, the body chunks delivered by the
stream, and whether the stream runs to completion (`streamOk = false`
models a mid-transfer failure after the listed chunks were written). -/
structure DlResp where
  status_code : Nat
  json : Option (List (String × String))
  text : String
  contentDisposition : Option String
  chunks : List String
  streamOk : Bool
  deriving Repr

/-- Property `response.ok` in `requests`: no 4xx/5xx status. -/
def DlResp.ok (r : DlResp) : Bool :=
  !(400 ≤ r.status_code && r.status_code < 600)

/-- Observable side effects of one `download_file` call. -/
inductive Effect
  | mkdirp (p : List String)
  | get (url : String) (bearer : String)
  | write (p : List String)
  deriving DecidableEq, Repr

/-- Outcome of one `download_file` call: the returned message (or raised
exception), the filesystem afterwards, and the effects performed. -/
structure DlOut where
  result : Except PyErr String
  fs : FS
  effects : List Effect
  deriving Repr

/-- Model of `re.findall("filename=(.+)", disposition)` restricted to the first
match: capture everything after the first `filename=` up to the end of the
line, requiring at least one character. -/
def findallFilename (dis : String) : List String :=
  match findSubFrom dis.data "filename=".data 0 with
  | none => []
  | some i =>
    let rest := (dis.data.drop (i + "filename=".length)).takeWhile
      (fun c => c ≠ '\n')
    if rest = [] then [] else [String.mk rest]

/-- Model of `CsdapClient.download_file` (csdap.py, lines 103–156).  The skip check
is `file_dir.exists() and len(os.listdir(file_dir))`; `os.listdir` on a
regular file raises `NotADirectoryError`.  On a non-ok response the message
is the JSON `detail` field, falling back to the raw text on `KeyError` /
`JSONDecodeError`.  The body is streamed into the final path; a mid-stream
failure leaves the partial file and re-raises. -/
def download_file (fs : FS) (out_dir path : List String) (token : String)
    (endpoint_version : Nat) (csdap_api_url : String) (resp : DlResp) :
    DlOut :=
  let file_dir := out_dir ++ path
  let fetch : FS → DlOut := fun fs0 =>
    match mkdirParents fs0 file_dir with
    | .error e => ⟨.error e, fs0, []⟩
    | .ok fs1 =>
      let url := csdap_api_url ++ "/v" ++ toString endpoint_version ++
        "/download/" ++ pathStr path
      if resp.ok = false then
        let msg := match resp.json with
          | none => resp.text
          | some obj =>
            match lookupKV obj "detail" with
            | some d => d
            | none => resp.text
        ⟨.ok ("Failed to download. " ++ msg), fs1,
          [.mkdirp file_dir, .get url token]⟩
      else
        let filename :=
          match resp.contentDisposition with
          | none => pathName path
          | some dis =>
            match findallFilename dis with
            | f :: _ => f
            | [] => pathName path
        let filepath := file_dir ++ [filename]
        let fs2 := (filepath, Node.file (String.join resp.chunks)) :: fs1
        if resp.streamOk then
          ⟨.ok ("Downloaded file to " ++ pathStr filepath), fs2,
            [.mkdirp file_dir, .get url token, .write filepath]⟩
        else
          ⟨.error .connectionError, fs2,
            [.mkdirp file_dir, .get url token, .write filepath]⟩
  match fsLookup fs file_dir with
  | some (.file _) => ⟨.error (.notADirectoryError file_dir), fs, []⟩
  | some .dir =>
    if (childNames fs file_dir).length ≠ 0 then
      ⟨.ok ("Skipped, files exist in " ++ pathStr file_dir), fs, []⟩
    else fetch fs
  | none => fetch fs

/-! ## `CsdapClient.get_auth_token` -/

/-- A plain HTTP response as consumed by the login protocol: status code,
headers, body text, and the decoded JSON body (`none` = not JSON). -/
structure Resp where
  status_code : Nat
  headers : List (String × String)
  text : String
  json : Option (List (String × String))
  deriving Repr

/-- Property `response.ok` in `requests`: no 4xx/5xx status. -/
def Resp.ok (r : Resp) : Bool :=
  !(400 ≤ r.status_code && r.status_code < 600)

/-- Model of `CsdapClient.get_auth_token` (csdap.py, lines 29–101), with the three
service responses (step-1 redirect, identity-provider redirect, token
exchange) passed in as the network oracle.  The returned string is the
bearer token; raised exceptions are `Except.error`.  Unclassified faults
the code can raise are modelled exactly where Python raises them:
`KeyError` for `response.headers["Location"]`, `querystring["error_msg"]`,
`querystring["code"]` and `response.json()["access_token"]`, `HTTPError`
for `raise_for_status`, `JSONDecodeError` for a non-JSON token body. -/
def get_auth_token (r1 r2 r3 : Resp) (username password : String) :
    Except PyErr String :=
  let _ := username
  let _ := password
  if !(r1.status_code = 302 || r1.status_code = 307) then
    .error (.authError
      ("Expected API to respond with a redirect, got " ++
        toString r1.status_code))
  else
  let edl_url := headerGetD r1.headers "Location" ""
  let redirect_path := urlPath edl_url
  if !(pyStartsWith redirect_path "/oauth/authorize") then
    .error (.authError
      ("Expected redirect to /oauth/authorize, got " ++ redirect_path))
  else
  if !r2.ok then
    .error (.authError (String.intercalate "\n"
      ["Failed to authenticate with Earthdata Login.",
       "Response from server:",
       indent4 (pyStrip r2.text),
       "HINT: check username and password."]))
  else
  if !(r2.status_code = 302 || r2.status_code = 307) then
    .error (.authError
      ("Expected Earthdata Login to respond with a redirect, got " ++
        toString r2.status_code))
  else
  match lookupKV r2.headers "Location" with
  | none => .error (.keyError "Location")
  | some loc =>
    let querystring := parse_qs (urlQuery loc)
    if qsGet querystring "error" ≠ [] ∧ r2.status_code = 302 ∧
        containsSub r2.text "resolution_url" = true then
      let start := (pyFind r2.text "resolution_url" +
        ("resolution_url".length : Int) + 1).toNat
      let stop := pyFindCharFrom r2.text '"' start
      .error (.authError (String.intercalate "\n"
        ["Authorization required for this application,",
         "please authorize by visiting the resolution url",
         String.mk (pySlice r2.text.data start stop)]))
    else if qsGet querystring "error" ≠ [] then
      match qsLookup querystring "error_msg" with
      | some msgs => .error (.authErrorList msgs)
      | none => .error (.keyError "error_msg")
    else
      match qsLookup querystring "code" with
      | none => .error (.keyError "code")
      | some _code =>
        if 400 ≤ r3.status_code ∧ r3.status_code < 600 then
          .error (.httpError r3.status_code)
        else
          match r3.json with
          | none => .error .jsonDecodeError
          | some obj =>
            match lookupKV obj "access_token" with
            | some token => .ok token
            | none => .error (.keyError "access_token")

/-! ## The download scheduler (`cli.py`, lines 112–180)

The producer loop submits one future per task, records it in
`future_to_path`, and after each submission tests
`len(future_to_path) >= 2 * max_workers`; when the test holds it blocks on
`concurrent.futures.wait(future_to_path, FIRST_COMPLETED)`.  A future's
completion (`Future.set_result`) first notifies waiters and only then
invokes the done callback `log_results`, which pops the future from
`future_to_path` and reports its result — so a future can be completed but
not yet popped, and `wait` returns (or returns immediately) on such a
future.

Small-step model separating those events: a state carries the producer
mode (`ready` at the loop top, `checking` between a submission and its
length test, `waiting` inside `wait`), the tasks not yet submitted, the
submitted-but-not-completed tasks (`running`), the completed tasks whose
`log_results` callback has not yet run (`done` — still in
`future_to_path`, so `future_to_path` corresponds to `running ++ done`),
and the reported results.  `wakes` is a ghost counter of producer
resumptions from `waiting`; it does not influence any transition. -/

/-- Producer mode: at the loop top, between a submission and its length
test, or blocked in `concurrent.futures.wait`. -/
inductive PMode
  | ready
  | checking
  | waiting
  deriving DecidableEq, Repr

/-- One reported `DownloadResult`: the task it belongs to and the outcome
message logged by `log_results`. -/
structure DlResult (α : Type) where
  task : α
  outcome : String
  deriving DecidableEq, Repr

/-- A scheduler state. -/
structure SchedState (α : Type) where
  mode : PMode
  pending : List α
  running : List α
  done : List α
  results : List (DlResult α)
  wakes : Nat
  deriving DecidableEq, Repr

/-- The initial state: all tasks pending, nothing submitted or reported. -/
def initState {α : Type} (tasks : List α) : SchedState α :=
  ⟨.ready, tasks, [], [], [], 0⟩

/-- One scheduler step with concurrency `c`:
* `submit` — the producer submits the next task and proceeds to the length
  test;
* `check` — the producer tests `len(future_to_path) >= 2 * c` (the map
  holds both running and completed-but-not-popped futures) and either
  enters `wait` or returns to the loop top;
* `finish` — a running task completes; the notification wakes the producer
  if it is blocked, before the callback runs;
* `wake` — `wait` returns because a completed future is (still) in the
  map, e.g. one already completed when `wait` was entered;
* `pop` — a completed future's `log_results` callback removes it from the
  map and reports its result. -/
inductive Step {α : Type} [DecidableEq α] (c : Nat) :
    SchedState α → SchedState α → Prop
  | submit (t : α) (ts R D : List α) (res : List (DlResult α)) (w : Nat) :
      Step c ⟨.ready, t :: ts, R, D, res, w⟩
        ⟨.checking, ts, t :: R, D, res, w⟩
  | check (P R D : List α) (res : List (DlResult α)) (w : Nat) :
      Step c ⟨.checking, P, R, D, res, w⟩
        ⟨if R.length + D.length ≥ 2 * c then .waiting else .ready,
         P, R, D, res, w⟩
  | finish (s : SchedState α) (t : α) (h : t ∈ s.running) :
      Step c s ⟨if s.mode = .waiting then .ready else s.mode, s.pending,
        s.running.erase t, t :: s.done, s.results,
        if s.mode = .waiting then s.wakes + 1 else s.wakes⟩
  | wake (P R D : List α) (res : List (DlResult α)) (w : Nat)
      (h : D ≠ []) :
      Step c ⟨.waiting, P, R, D, res, w⟩ ⟨.ready, P, R, D, res, w + 1⟩
  | pop (s : SchedState α) (t : α) (o : String) (h : t ∈ s.done) :
      Step c s ⟨s.mode, s.pending, s.running, s.done.erase t,
        ⟨t, o⟩ :: s.results, s.wakes⟩

/-- Reachability under scheduler steps. -/
def Reach {α : Type} [DecidableEq α] (c : Nat) :
    SchedState α → SchedState α → Prop :=
  Relation.ReflTransGen (Step c)

/-! ## Auxiliary definitions used by the claim statements -/

/-- The failure message of `download_file` on a non-ok response: the JSON
body's `detail` field, falling back to the raw text on `KeyError` /
`JSONDecodeError` (csdap.py, lines 127–130). -/
def detailOrText (resp : DlResp) : String :=
  match resp.json with
  | none => resp.text
  | some obj =>
    match lookupKV obj "detail" with
    | some d => d
    | none => resp.text

/-- Is a `download_file` outcome a `Failed` report? -/
def isFailedResult : Except PyErr String → Bool
  | .ok s => ("Failed to download.".data).isPrefixOf s.data
  | _ => false

/-- Is a `download_file` outcome a `Downloaded` report? -/
def isDownloadedResult : Except PyErr String → Bool
  | .ok s => ("Downloaded file to ".data).isPrefixOf s.data
  | _ => false

/-- Server responses for a ten-task run: task 0 answers 500 with a JSON
error detail, tasks 1–9 answer 200 with a one-chunk body. -/
def tenRunResp (i : Nat) : DlResp :=
  if i = 0 then ⟨500, some [("detail", "Internal Server Error")], "", none, [], true⟩
  else ⟨200, none, "", none, ["data"], true⟩

/-- The per-task results of the ten-task run (distinct destinations, so the
tasks are independent). -/
def tenRunResults : List (Except PyErr String) :=
  (List.range 10).map fun i =>
    (download_file [] ["out"] ["task" ++ toString i] "tok" 2 "http://api"
      (tenRunResp i)).result

/-- Each step preserves the multiset of tasks split across
pending / running / completed-unreported / reported. -/
theorem step_perm {α : Type} [DecidableEq α] {c : Nat}
    {s s' : SchedState α} (h : Step c s s') :
    List.Perm
      (s'.pending ++ s'.running ++ s'.done ++ s'.results.map DlResult.task)
      (s.pending ++ s.running ++ s.done ++ s.results.map DlResult.task) := by
  cases h with
  | submit t ts R D res w =>
    simp only [List.cons_append, List.append_assoc]
    exact List.perm_middle
  | check P R D res w => exact List.Perm.refl _
  | finish s t hmem =>
    simp only [List.cons_append, List.append_assoc]
    refine List.Perm.append_left s.pending ?_
    refine List.Perm.trans List.perm_middle ?_
    exact List.Perm.append_right _ (List.perm_cons_erase hmem).symm
  | wake P R D res w hne => exact List.Perm.refl _
  | pop s t o hmem =>
    simp only [List.map_cons, List.append_assoc]
    refine List.Perm.append_left s.pending ?_
    refine List.Perm.append_left s.running ?_
    refine List.Perm.trans List.perm_middle ?_
    exact List.Perm.append_right _ (List.perm_cons_erase hmem).symm

/-- Along any run, pending ⊎ running ⊎ completed-unreported ⊎ reported is
a permutation of the input task list. -/
theorem reach_perm {α : Type} [DecidableEq α] {c : Nat} {tasks : List α}
    {s : SchedState α} (h : Reach c (initState tasks) s) :
    List.Perm
      (s.pending ++ s.running ++ s.done ++ s.results.map DlResult.task)
      tasks := by
  induction h with
  | refl => simp [initState]
  | tail _ h₂ ih => exact (step_perm h₂).trans ih

/-- Each step preserves the residual backpressure invariant: the running
count exceeds `2 * c` by at most the number of producer wakeups, strictly
so when the producer is at the loop top. -/
theorem step_bound {α : Type} [DecidableEq α] {c : Nat}
    {s s' : SchedState α} (h : Step c s s')
    (ih : s.running.length ≤ 2 * c + s.wakes ∧
      (s.mode = .ready → s.running.length < 2 * c + s.wakes)) :
    s'.running.length ≤ 2 * c + s'.wakes ∧
      (s'.mode = .ready → s'.running.length < 2 * c + s'.wakes) := by
  cases h with
  | submit t ts R D res w =>
    have hlt : R.length < 2 * c + w := ih.2 rfl
    refine ⟨?_, fun hm => by simp at hm⟩
    simp only [List.length_cons]
    omega
  | check P R D res w =>
    have h1 := ih.1
    simp only at h1
    refine ⟨h1, ?_⟩
    intro hm
    simp only at hm
    by_cases hge : R.length + D.length ≥ 2 * c
    · rw [if_pos hge] at hm
      exact absurd hm (by simp)
    · simp only
      omega
  | finish s t hmem =>
    have hpos : 0 < s.running.length :=
      List.length_pos.mpr (List.ne_nil_of_mem hmem)
    have hlen : (s.running.erase t).length = s.running.length - 1 :=
      List.length_erase_of_mem hmem
    have h1 := ih.1
    by_cases hm : s.mode = .waiting
    · refine ⟨?_, fun _ => ?_⟩ <;> simp only [hm, if_pos, hlen] <;> omega
    · have hmiff : (if s.mode = .waiting then PMode.ready else s.mode) =
          s.mode := if_neg hm
      have hwiff : (if s.mode = .waiting then s.wakes + 1 else s.wakes) =
          s.wakes := if_neg hm
      refine ⟨?_, ?_⟩
      · simp only [hwiff, hlen]
        omega
      · intro hmr
        simp only [hmiff] at hmr
        have h2 := ih.2 hmr
        simp only [hwiff, hlen]
        omega
  | wake P R D res w hne =>
    have h1 := ih.1
    simp only at h1
    exact ⟨by simp only; omega, fun _ => by simp only; omega⟩
  | pop s t o hmem => exact ⟨ih.1, ih.2⟩

/-- The residual backpressure invariant holds in every reachable state
(for `c ≥ 1`, as `ThreadPoolExecutor` requires). -/
theorem reach_bound {α : Type} [DecidableEq α] {c : Nat} (hc : 1 ≤ c)
    {tasks : List α} {s : SchedState α} (h : Reach c (initState tasks) s) :
    s.running.length ≤ 2 * c + s.wakes ∧
      (s.mode = .ready → s.running.length < 2 * c + s.wakes) := by
  induction h with
  | refl => exact ⟨by simp [initState], fun _ => by simp [initState]; omega⟩
  | tail _ h₂ ih => exact step_bound h₂ ih

/-! ## Claim theorems -/

/-- C1: for every finite task sequence fed to the scheduler, exactly one
`DownloadResult` is produced per input `DownloadTask` — in every completed
run (all tasks submitted, finished, and their callbacks run, as the
executor's shutdown guarantees) reachable under any interleaving of
completions, callback pops and producer wakeups, the reported results'
tasks are a permutation of the input task list: no task lost, none
reported twice, and the number of results equals the number of tasks. -/
theorem scheduler_one_result_per_task {α : Type} [DecidableEq α]
    (tasks : List α) (c : Nat) (s : SchedState α)
    (h : Reach c (initState tasks) s)
    (hp : s.pending = []) (hr : s.running = []) (hd : s.done = []) :
    List.Perm (s.results.map DlResult.task) tasks ∧
      s.results.length = tasks.length := by
  have hperm := reach_perm h
  rw [hp, hr, hd] at hperm
  simp only [List.nil_append] at hperm
  exact ⟨hperm, by simpa using hperm.length_eq⟩

/-- Witness for C1: a one-task run with concurrency 1, driven through
submit, length check, completion and callback to its terminal state. -/
theorem scheduler_one_result_per_task_witness :
    List.Perm
      ((SchedState.mk .ready [] [] [] [⟨"a", "done"⟩] 0 :
        SchedState String).results.map DlResult.task) ["a"] ∧
      (SchedState.mk .ready ([] : List String) [] []
        [⟨"a", "done"⟩] 0).results.length = (["a"] : List String).length := by
  refine scheduler_one_result_per_task ["a"] 1 _ ?_ rfl rfl rfl
  refine Relation.ReflTransGen.head (Step.submit "a" [] [] [] [] 0) ?_
  refine Relation.ReflTransGen.head (Step.check [] ["a"] [] [] 0) ?_
  refine Relation.ReflTransGen.head
    (Step.finish ⟨.ready, [], ["a"], [], [], 0⟩ "a" (by simp)) ?_
  exact Relation.ReflTransGen.single
    (Step.pop ⟨.ready, [], [], ["a"], [], 0⟩ "a" "done" (by simp))

/-- C2 counterexample: with concurrency 1 the bound `2 * c = 2` on
submitted-but-not-completed tasks is exceeded.  Trace: submit a, b (map
full, producer waits); a completes — the notification wakes the producer
before a's `log_results` pops it; submit d; the length test sees three map
entries and the producer re-enters `wait`, which returns immediately on
the completed-but-unpopped a; submit e — now a, b, d, e are submitted, b,
d, e not completed, and `running` holds 3 > 2 tasks. -/
theorem scheduler_bound_exceeded_counterexample :
    Reach 1 (initState (["a", "b", "d", "e"] : List String))
      ⟨.checking, [], ["e", "d", "b"], ["a"], [], 2⟩ ∧
      2 * 1 < (SchedState.mk .checking ([] : List String) ["e", "d", "b"]
        ["a"] [] 2).running.length := by
  constructor
  · refine Relation.ReflTransGen.head
      (Step.submit "a" ["b", "d", "e"] [] [] [] 0) ?_
    refine Relation.ReflTransGen.head
      (Step.check ["b", "d", "e"] ["a"] [] [] 0) ?_
    refine Relation.ReflTransGen.head
      (Step.submit "b" ["d", "e"] ["a"] [] [] 0) ?_
    refine Relation.ReflTransGen.head
      (Step.check ["d", "e"] ["b", "a"] [] [] 0) ?_
    refine Relation.ReflTransGen.head
      (Step.finish ⟨.waiting, ["d", "e"], ["b", "a"], [], [], 0⟩ "a"
        (by simp)) ?_
    refine Relation.ReflTransGen.head
      (Step.submit "d" ["e"] ["b"] ["a"] [] 1) ?_
    refine Relation.ReflTransGen.head
      (Step.check ["e"] ["d", "b"] ["a"] [] 1) ?_
    refine Relation.ReflTransGen.head
      (Step.wake ["e"] ["d", "b"] ["a"] [] 1 (by simp)) ?_
    exact Relation.ReflTransGen.single
      (Step.submit "e" [] ["d", "b"] ["a"] [] 2)
  · decide

/-- C2 amended: the submitted-but-not-completed count is bounded by
`2 * c` plus the number of producer wakeups from `wait`, and equals at
most `2 * c` as long as no wakeup has occurred; every wakeup happens with
the producer blocked and is justified by a completion — either a
completed-but-unreported future still in the map or a running task
completing in that step.  No unconditional `2 * c` bound holds: a
completed future that `log_results` has not yet popped lets the producer
submit past the bound (see the counterexample). -/
theorem scheduler_backpressure_amended {α : Type} [DecidableEq α]
    (tasks : List α) (c : Nat) (s : SchedState α) (hc : 1 ≤ c)
    (h : Reach c (initState tasks) s) :
    s.running.length ≤ 2 * c + s.wakes ∧
      (s.wakes = 0 → s.running.length ≤ 2 * c) ∧
      (∀ s', Step c s s' → s.wakes < s'.wakes →
        s.mode = .waiting ∧ (s.done ≠ [] ∨ ∃ t, t ∈ s.running)) := by
  obtain ⟨h1, _h2⟩ := reach_bound hc h
  refine ⟨h1, fun hw => by omega, ?_⟩
  intro s' hstep hw
  cases hstep with
  | submit t ts R D res w => simp at hw
  | check P R D res w => simp at hw
  | finish s t hmem =>
    by_cases hm : s.mode = .waiting
    · exact ⟨hm, Or.inr ⟨t, hmem⟩⟩
    · simp [hm] at hw
  | wake P R D res w hne => exact ⟨rfl, Or.inl hne⟩
  | pop s t o hmem => simp at hw

/-- Witness for C2's amended theorem at the initial state of a one-task
run with concurrency 1. -/
theorem scheduler_backpressure_amended_witness :
    (initState (["a"] : List String)).running.length ≤
        2 * 1 + (initState (["a"] : List String)).wakes ∧
      ((initState (["a"] : List String)).wakes = 0 →
        (initState (["a"] : List String)).running.length ≤ 2 * 1) ∧
      (∀ s', Step 1 (initState (["a"] : List String)) s' →
        (initState (["a"] : List String)).wakes < s'.wakes →
        (initState (["a"] : List String)).mode = .waiting ∧
          ((initState (["a"] : List String)).done ≠ [] ∨
            ∃ t, t ∈ (initState (["a"] : List String)).running)) :=
  scheduler_backpressure_amended ["a"] 1 _ (by omega)
    Relation.ReflTransGen.refl

/-- C3: when the destination directory exists and is non-empty,
`download_file` returns the `Skipped` message, leaves the filesystem
untouched, and performs no effects at all — in particular no network
request and no write. -/
theorem download_skips_nonempty_dest (fs : FS) (out_dir path : List String)
    (token : String) (ver : Nat) (api : String) (resp : DlResp)
    (hdir : fsLookup fs (out_dir ++ path) = some .dir)
    (hne : childNames fs (out_dir ++ path) ≠ []) :
    download_file fs out_dir path token ver api resp =
      ⟨.ok ("Skipped, files exist in " ++ pathStr (out_dir ++ path)),
        fs, []⟩ := by
  have hlen : (childNames fs (out_dir ++ path)).length ≠ 0 := by
    simpa [List.length_eq_zero] using hne
  simp [download_file, hdir, hlen]

/-- Witness for C3: a destination directory already holding one file. -/
theorem download_skips_nonempty_dest_witness :
    download_file [(["out", "a"], Node.dir), (["out", "a", "x"], Node.file "z")]
      ["out"] ["a"] "tok" 2 "http://api"
      ⟨200, none, "", none, ["d"], true⟩ =
      ⟨.ok ("Skipped, files exist in " ++ pathStr (["out"] ++ ["a"])),
        [(["out", "a"], Node.dir), (["out", "a", "x"], Node.file "z")],
        []⟩ :=
  download_skips_nonempty_dest _ _ _ _ _ _ _ (by rfl) (by decide)

/-- C10 (implicit): when the destination path exists as a regular file,
the skip check's `os.listdir` raises `NotADirectoryError`, which
`download_file` does not catch — the call produces no `Skipped` or
`Failed` result. -/
theorem download_notadirectory_on_file (fs : FS)
    (out_dir path : List String) (token : String) (ver : Nat)
    (api : String) (resp : DlResp) (content : String)
    (hfile : fsLookup fs (out_dir ++ path) = some (.file content)) :
    download_file fs out_dir path token ver api resp =
      ⟨.error (.notADirectoryError (out_dir ++ path)), fs, []⟩ := by
  simp [download_file, hfile]

/-- Witness for C10: the destination path is an existing regular file. -/
theorem download_notadirectory_on_file_witness :
    download_file [(["out", "a"], Node.file "zz")] ["out"] ["a"] "tok" 2
      "http://api" ⟨200, none, "", none, [], true⟩ =
      ⟨.error (.notADirectoryError (["out"] ++ ["a"])),
        [(["out", "a"], Node.file "zz")], []⟩ :=
  download_notadirectory_on_file _ _ _ _ _ _ _ "zz" (by rfl)

/-- C4: on an unsuccessful download response `download_file` reports
`Failed` with the JSON `detail` message, falling back to the raw response
text, instead of raising; and in the ten-task run with one 500 and nine
200 responses every task yields a result — exactly one `Failed` and nine
`Downloaded`. -/
theorem download_failure_isolated :
    (∀ (fs : FS) (out_dir path : List String) (token : String) (ver : Nat)
      (api : String) (resp : DlResp) (fs1 : FS),
      resp.ok = false →
      (fsLookup fs (out_dir ++ path) = none ∨
        (fsLookup fs (out_dir ++ path) = some .dir ∧
          childNames fs (out_dir ++ path) = [])) →
      mkdirParents fs (out_dir ++ path) = .ok fs1 →
      (download_file fs out_dir path token ver api resp).result =
        .ok ("Failed to download. " ++ detailOrText resp)) ∧
    tenRunResults.length = 10 ∧
    tenRunResults.countP isFailedResult = 1 ∧
    tenRunResults.countP isDownloadedResult = 9 := by
  refine ⟨?_, by decide, by decide, by decide⟩
  intro fs out_dir path token ver api resp fs1 hok hskip hmk
  rcases hskip with hnone | ⟨hdir, hchild⟩
  · simp [download_file, hnone, hmk, hok, detailOrText]
  · simp [download_file, hdir, hchild, hmk, hok, detailOrText]

/-- Witness for C4's universally quantified part at a concrete failing
response whose body is not JSON. -/
theorem download_failure_isolated_witness :
    (download_file [] ["o"] ["p"] "t" 1 "http://a"
      ⟨500, none, "boom", none, [], true⟩).result =
      .ok ("Failed to download. " ++
        detailOrText ⟨500, none, "boom", none, [], true⟩) :=
  download_failure_isolated.1 [] ["o"] ["p"] "t" 1 "http://a" _ _
    (by decide) (Or.inl rfl) rfl

/-- C9 counterexample: a transfer that fails mid-stream (one chunk written,
then a connection error) leaves the truncated file under the final name,
and a subsequent run's skip check classifies the destination as already
downloaded — contradicting the claim that a partial write is never left
looking complete. -/
theorem download_partial_write_counterexample :
    (download_file [] ["out"] ["c", "s", "a"] "tok" 2 "http://api"
      ⟨200, none, "", none, ["par"], false⟩).result =
        .error .connectionError ∧
    (download_file
      (download_file [] ["out"] ["c", "s", "a"] "tok" 2 "http://api"
        ⟨200, none, "", none, ["par"], false⟩).fs
      ["out"] ["c", "s", "a"] "tok" 2 "http://api"
      ⟨200, none, "", none, ["x"], true⟩).result =
        .ok "Skipped, files exist in out/c/s/a" :=
  ⟨rfl, rfl⟩

/-- C9 amended: a mid-stream failure raises out of `download_file`
(surfacing as that task's failure), but the partially written file remains
under the final name, and any subsequent run of the same task skips the
destination as already downloaded without issuing a network request —
whatever was delivered before the failure and whatever the second response
would have been. -/
theorem download_partial_write_looks_complete (chunks : List String)
    (resp2 : DlResp) :
    (download_file [] ["out"] ["c", "s", "a"] "tok" 2 "http://api"
      ⟨200, none, "", none, chunks, false⟩).result =
        .error .connectionError ∧
    download_file
      (download_file [] ["out"] ["c", "s", "a"] "tok" 2 "http://api"
        ⟨200, none, "", none, chunks, false⟩).fs
      ["out"] ["c", "s", "a"] "tok" 2 "http://api" resp2 =
      ⟨.ok "Skipped, files exist in out/c/s/a",
        (download_file [] ["out"] ["c", "s", "a"] "tok" 2 "http://api"
          ⟨200, none, "", none, chunks, false⟩).fs, []⟩ :=
  ⟨rfl, rfl⟩

/-- Specification of a successful single-character scan: the hit is at or
after the base index, in range, holds the character, and no earlier
position in the scanned suffix does. -/
theorem findSubIn_single_spec (c : Char) :
    ∀ (d : List Char) (i0 j : Nat), findSubIn [c] d i0 = some j →
      i0 ≤ j ∧ j - i0 < d.length ∧ d[j - i0]? = some c ∧
        ∀ k, k < j - i0 → d[k]? ≠ some c
  | [], i0, j => by
    intro h
    simp [findSubIn] at h
  | x :: rest, i0, j => by
    intro h
    rw [findSubIn] at h
    split at h
    next hx =>
      have hxc : x = c := by
        simpa [List.take_succ_cons] using hx
      obtain rfl : i0 = j := by simpa using h
      subst hxc
      exact ⟨Nat.le_refl _, by simp, by simp, fun k hk => by omega⟩
    next hx =>
      have hxc : x ≠ c := by
        simpa [List.take_succ_cons] using hx
      obtain ⟨h1, h2, h3, h4⟩ := findSubIn_single_spec c rest (i0 + 1) j h
      have hji : j - i0 = (j - (i0 + 1)) + 1 := by omega
      refine ⟨by omega, ?_, ?_, ?_⟩
      · simp only [List.length_cons]
        omega
      · rw [hji, List.getElem?_cons_succ]
        exact h3
      · intro k hk
        cases k with
        | zero =>
          simp only [List.getElem?_cons_zero]
          exact fun hc => hxc (Option.some.inj hc)
        | succ k2 =>
          rw [List.getElem?_cons_succ]
          exact h4 k2 (by omega)

/-- A take up to the first hit of a stopping character equals a takeWhile
on its absence. -/
theorem take_eq_takeWhile_of_stop {c : Char} :
    ∀ (d : List Char) (k : Nat), d[k]? = some c →
      (∀ i, i < k → d[i]? ≠ some c) →
      d.take k = d.takeWhile (fun x => x ≠ c)
  | [], k, h, _ => by simp at h
  | x :: d, 0, h, _ => by
    simp only [List.getElem?_cons_zero, Option.some.injEq] at h
    subst h
    rw [List.take_zero, List.takeWhile_cons, if_neg (by simp)]
  | x :: d, k + 1, h, hb => by
    have hx : x ≠ c := by
      have h0 := hb 0 (Nat.succ_pos k)
      simpa using h0
    rw [List.take_succ_cons, List.takeWhile_cons, if_pos (by simpa using hx)]
    have htail := take_eq_takeWhile_of_stop d k (by simpa using h)
      (fun i hi => by simpa using hb (i + 1) (by omega))
    rw [htail]

/-- The code's slice `text[start:text.find(chr, start)]` equals the scan
"take everything from `start` up to the next occurrence of the
character". -/
theorem slice_to_first_eq_takeWhile (l : List Char) (c : Char)
    (start j : Nat) (h : findSubFrom l [c] start = some j) :
    pySlice l start ((j : Nat) : Int) =
      (l.drop start).takeWhile (fun x => x ≠ c) := by
  obtain ⟨hsj, hlt, hget, hbefore⟩ :=
    findSubIn_single_spec c (l.drop start) start j h
  have hdlen : (l.drop start).length = l.length - start := by
    simp
  have hjl : j < l.length := by omega
  have h1 : pySlice l start ((j : Nat) : Int) =
      (l.drop start).take (j - start) := by
    simp only [pySlice]
    rw [if_neg (by omega : ¬((j : Nat) : Int) < 0), Int.toNat_natCast,
      Nat.min_eq_left (Nat.le_of_lt hjl), List.drop_take]
  rw [h1]
  exact take_eq_takeWhile_of_stop (l.drop start) (j - start) hget hbefore

/-- C5: in login step 1, a first response whose status is neither 302 nor
307 raises an `AuthError` naming the unexpected status; a 302/307 response
whose `Location` path does not begin with `/oauth/authorize` raises an
`AuthError` naming the unexpected redirect target. -/
theorem login_step1_rejects (r1 r2 r3 : Resp) (u p : String) :
    (r1.status_code ≠ 302 → r1.status_code ≠ 307 →
      get_auth_token r1 r2 r3 u p = .error (.authError
        ("Expected API to respond with a redirect, got " ++
          toString r1.status_code))) ∧
    ((r1.status_code = 302 ∨ r1.status_code = 307) →
      pyStartsWith (urlPath (headerGetD r1.headers "Location" ""))
        "/oauth/authorize" = false →
      get_auth_token r1 r2 r3 u p = .error (.authError
        ("Expected redirect to /oauth/authorize, got " ++
          urlPath (headerGetD r1.headers "Location" "")))) := by
  constructor
  · intro h302 h307
    simp [get_auth_token, h302, h307]
  · rintro (h | h) hb <;> simp [get_auth_token, h, hb]

/-- Witness for C5: a 200 first response, and a 302 first response
redirecting away from `/oauth/authorize`. -/
theorem login_step1_rejects_witness :
    get_auth_token ⟨200, [], "", none⟩ ⟨0, [], "", none⟩ ⟨0, [], "", none⟩
        "u" "p" =
      .error (.authError "Expected API to respond with a redirect, got 200") ∧
    get_auth_token ⟨302, [("Location", "https://x/other")], "", none⟩
        ⟨0, [], "", none⟩ ⟨0, [], "", none⟩ "u" "p" =
      .error (.authError "Expected redirect to /oauth/authorize, got /other") :=
  ⟨(login_step1_rejects _ _ _ _ _).1 (by decide) (by decide),
   (login_step1_rejects _ _ _ _ _).2 (Or.inl rfl) (by decide)⟩

/-- C6: in login step 3, when the redirect query carries `error`, the
status is exactly 302, and the body contains `resolution_url`, login
raises an `AuthError` whose message carries the text scanned from one
character past the end of the substring `resolution_url` up to the next
double-quote character. -/
theorem login_resolution_url_extracted (r1 r2 r3 : Resp) (u p : String)
    (loc : String) (i j : Nat)
    (h1 : r1.status_code = 302 ∨ r1.status_code = 307)
    (h1b : pyStartsWith (urlPath (headerGetD r1.headers "Location" ""))
      "/oauth/authorize" = true)
    (h2s : r2.status_code = 302)
    (hloc : lookupKV r2.headers "Location" = some loc)
    (herr : qsGet (parse_qs (urlQuery loc)) "error" ≠ [])
    (hfind : findSubFrom r2.text.data "resolution_url".data 0 = some i)
    (hq : findSubFrom r2.text.data ['"']
      (i + "resolution_url".length + 1) = some j) :
    get_auth_token r1 r2 r3 u p = .error (.authError
      (String.intercalate "\n"
        ["Authorization required for this application,",
         "please authorize by visiting the resolution url",
         String.mk ((r2.text.data.drop
             (i + "resolution_url".length + 1)).takeWhile
           (fun ch => ch ≠ '"'))])) := by
  have hcont : containsSub r2.text "resolution_url" = true := by
    simp [containsSub, hfind]
  have hstart : (pyFind r2.text "resolution_url" +
      ("resolution_url".length : Int) + 1).toNat =
      i + "resolution_url".length + 1 := by
    simp only [pyFind, hfind]
    omega
  have hstop : pyFindCharFrom r2.text '"'
      (i + "resolution_url".length + 1) = ((j : Nat) : Int) := by
    simp [pyFindCharFrom, hq]
  have hslice := slice_to_first_eq_takeWhile r2.text.data '"'
    (i + "resolution_url".length + 1) j hq
  rcases h1 with h1 | h1 <;>
    simp [get_auth_token, h1, h1b, Resp.ok, h2s, hloc, herr, hcont,
      hstart, hstop, hslice]

/-- Witness for C6: a 302 identity-provider response whose body is a JSON
object containing a `resolution_url` key (the scan lands on the `: `
between the key's closing quote and the value's opening quote). -/
theorem login_resolution_url_extracted_witness :
    get_auth_token
      ⟨302, [("Location",
        "https://urs.earthdata.nasa.gov/oauth/authorize?client_id=x")],
        "", none⟩
      ⟨302, [("Location", "https://e/cb?error=x&error_msg=m")],
        "\x7b\"resolution_url\": \"https://urs/approve?x=1\"\x7d", none⟩
      ⟨0, [], "", none⟩ "u" "p" =
      .error (.authError
        (String.intercalate "\n"
          ["Authorization required for this application,",
           "please authorize by visiting the resolution url",
           String.mk (((
             "\x7b\"resolution_url\": \"https://urs/approve?x=1\"\x7d").data.drop
               (2 + "resolution_url".length + 1)).takeWhile
             (fun ch => ch ≠ '"'))])) :=
  login_resolution_url_extracted _ _ _ "u" "p"
    "https://e/cb?error=x&error_msg=m" 2 19 (Or.inl rfl) (by decide) rfl
    rfl (by decide) (by decide) (by decide)

/-- C7: in login step 3, when the redirect query carries `error` but the
`resolution_url` branch does not apply, login raises an `AuthError`
surfacing the value of the `error_msg` query parameter (which the code
passes as the parsed value list). -/
theorem login_error_msg_surfaced (r1 r2 r3 : Resp) (u p : String)
    (loc : String) (msgs : List String)
    (h1 : r1.status_code = 302 ∨ r1.status_code = 307)
    (h1b : pyStartsWith (urlPath (headerGetD r1.headers "Location" ""))
      "/oauth/authorize" = true)
    (h2s : r2.status_code = 302 ∨ r2.status_code = 307)
    (hloc : lookupKV r2.headers "Location" = some loc)
    (herr : qsGet (parse_qs (urlQuery loc)) "error" ≠ [])
    (hnores : ¬(r2.status_code = 302 ∧
      containsSub r2.text "resolution_url" = true))
    (hmsg : qsLookup (parse_qs (urlQuery loc)) "error_msg" = some msgs) :
    get_auth_token r1 r2 r3 u p = .error (.authErrorList msgs) := by
  rcases h1 with h1 | h1 <;> rcases h2s with h2s | h2s
  · have hcont : containsSub r2.text "resolution_url" = false := by
      rcases hc : containsSub r2.text "resolution_url" with _ | _
      · rfl
      · exact absurd ⟨h2s, hc⟩ hnores
    simp [get_auth_token, h1, h1b, Resp.ok, h2s, hloc, herr, hcont, hmsg]
  · simp [get_auth_token, h1, h1b, Resp.ok, h2s, hloc, herr, hmsg]
  · have hcont : containsSub r2.text "resolution_url" = false := by
      rcases hc : containsSub r2.text "resolution_url" with _ | _
      · rfl
      · exact absurd ⟨h2s, hc⟩ hnores
    simp [get_auth_token, h1, h1b, Resp.ok, h2s, hloc, herr, hcont, hmsg]
  · simp [get_auth_token, h1, h1b, Resp.ok, h2s, hloc, herr, hmsg]

/-- Witness for C7: `error=access_denied&error_msg=denied` in the redirect
query, empty body. -/
theorem login_error_msg_surfaced_witness :
    get_auth_token
      ⟨302, [("Location",
        "https://urs.earthdata.nasa.gov/oauth/authorize?client_id=x")],
        "", none⟩
      ⟨302, [("Location", "https://e/cb?error=access_denied&error_msg=denied")],
        "", none⟩
      ⟨0, [], "", none⟩ "u" "p" =
      .error (.authErrorList ["denied"]) :=
  login_error_msg_surfaced _ _ _ "u" "p"
    "https://e/cb?error=access_denied&error_msg=denied" ["denied"]
    (Or.inl rfl) (by decide) (Or.inl rfl) rfl (by decide) (by decide) rfl

/-- C8 counterexample: a well-formed login whose final redirect query
contains neither `code` nor `error` fails with an uncaught `KeyError`
(from `querystring["code"]`), which is not a classified `AuthError` —
refuting the claim that every login failure surfaces as an `AuthError`. -/
theorem login_unclassified_fault_counterexample :
    get_auth_token
      ⟨302, [("Location",
        "https://urs.earthdata.nasa.gov/oauth/authorize?client_id=x")],
        "", none⟩
      ⟨302, [("Location", "https://example.com/cb?state=1")], "", none⟩
      ⟨200, [], "", some [("access_token", "TOK")]⟩ "u" "p" =
      .error (.keyError "code") ∧
    PyErr.isAuthErr (.keyError "code") = false :=
  ⟨rfl, rfl⟩

/-- C8 amended: every login failure is either a classified `AuthError` or
one of the code's known unclassified faults — a `KeyError` on `Location`,
`error_msg`, `code` or `access_token`, a `JSONDecodeError` on a non-JSON
token body, or the `HTTPError` propagated by `raise_for_status` at the
token exchange. -/
theorem login_errors_classified (r1 r2 r3 : Resp) (u p : String)
    (e : PyErr) (h : get_auth_token r1 r2 r3 u p = .error e) :
    e.isAuthErr = true ∨
      e = .keyError "Location" ∨ e = .keyError "error_msg" ∨
      e = .keyError "code" ∨ e = .keyError "access_token" ∨
      e = .jsonDecodeError ∨ e = .httpError r3.status_code := by
  simp only [get_auth_token] at h
  repeat' split at h
  all_goals (try (injection h with h; subst h))
  all_goals simp_all [PyErr.isAuthErr]

/-- Witness for C8's amended theorem at the counterexample's input. -/
theorem login_errors_classified_witness :
    (PyErr.keyError "code").isAuthErr = true ∨
      PyErr.keyError "code" = .keyError "Location" ∨
      PyErr.keyError "code" = .keyError "error_msg" ∨
      PyErr.keyError "code" = .keyError "code" ∨
      PyErr.keyError "code" = .keyError "access_token" ∨
      PyErr.keyError "code" = .jsonDecodeError ∨
      PyErr.keyError "code" =
        .httpError (Resp.mk 200 [] "" (some [("access_token", "TOK")])).status_code :=
  login_errors_classified
    ⟨302, [("Location",
      "https://urs.earthdata.nasa.gov/oauth/authorize?client_id=x")],
      "", none⟩
    ⟨302, [("Location", "https://example.com/cb?state=1")], "", none⟩
    ⟨200, [], "", some [("access_token", "TOK")]⟩ "u" "p" _ rfl

end Csdap

